import Mathlib

/-!
Verification of the Note-System storage layer.

Shallow embedding of the repository's storage code:
* the server-side Google-Apps-Script web app (`handleRequest`, `createResponse`,
  `handleSetItem`, `handleGetItem`, `handleRemoveItem`, `handleGetAllItems`,
  `handleGetDateRange`, `handleGetPreviousYearData`, `handleCreateBackup`,
  `handleGetSyncStatus`) from the unnamed GAS source file;
* the browser-side `GASStorage` client (gas-storage.js);
* the `BaseStorage.withRetry` helper (base-storage.js);
* the `GDriveStorage` client (the unnamed gdrive-storage source file).

JavaScript exceptions are modelled with `Except String`; `try/catch` blocks
become matches on the `Except` value.  JS `undefined` parameters are `Option`.
The spreadsheet backing store is a list of rows (header row excluded), each
row holding the four columns `[key, value, timestamp, lastModified]`.
-/

/-! ### Kernel-friendly string primitives

The JS string primitives the source uses (`split`, `startsWith`, `includes`,
`Number` parsing, number rendering, `replace`) are modelled on `List Char`
so that every concrete computation reduces definitionally. -/

/-- `s.split(c)` helper: accumulate the current segment (reversed). -/
def splitAux (c : Char) : List Char → List Char → List String
  | [], acc => [String.mk acc.reverse]
  | x :: xs, acc =>
      if x == c then String.mk acc.reverse :: splitAux c xs []
      else splitAux c xs (x :: acc)

/-- JS `s.split(c)` for a single-character separator. -/
def strSplit (c : Char) (s : String) : List String := splitAux c s.data []

/-- Boolean list-prefix test. -/
def isPrefixOfB : List Char → List Char → Bool
  | [], _ => true
  | _ :: _, [] => false
  | p :: ps, x :: xs => p == x && isPrefixOfB ps xs

/-- JS `s.startsWith(p)`. -/
def strStartsWith (s p : String) : Bool := isPrefixOfB p.data s.data

/-- Substring occurrence test helper. -/
def containsAux (pat : List Char) : List Char → Bool
  | [] => isPrefixOfB pat []
  | x :: xs => isPrefixOfB pat (x :: xs) || containsAux pat xs

/-- JS `s.includes(pat)`. -/
def strContains (s pat : String) : Bool := containsAux pat.data s.data

/-- Decimal digit value of a character. -/
def digitVal (c : Char) : Option Nat :=
  if '0' ≤ c && c ≤ '9' then some (c.toNat - '0'.toNat) else none

/-- Fold decimal digits into a number; any non-digit fails. -/
def strToNatGo : List Char → Nat → Option Nat
  | [], acc => some acc
  | c :: cs, acc =>
      match digitVal c with
      | some d => strToNatGo cs (acc * 10 + d)
      | none => none

/-- Parse a (non-empty, all-digit) decimal string. -/
def strToNat (s : String) : Option Nat :=
  match s.data with
  | [] => none
  | l => strToNatGo l 0

/-- Decimal digits of `n`, most significant first, with fuel `n + 1`. -/
def natToStrAux : Nat → Nat → List Char → List Char
  | 0, _, acc => acc
  | fuel + 1, n, acc =>
      let c := Char.ofNat (48 + n % 10)
      if n < 10 then c :: acc else natToStrAux fuel (n / 10) (c :: acc)

/-- Decimal rendering of a natural number. -/
def natToStr (n : Nat) : String := String.mk (natToStrAux (n + 1) n [])

/-- Decimal rendering of an integer (JS number-to-string for integers). -/
def intToStr : Int → String
  | .ofNat n => natToStr n
  | .negSucc n => "-" ++ natToStr (n + 1)

/-- JS global replace of the dash character by the empty string, as used on a
`YYYY-MM-DD` slice. -/
def removeDashes (s : String) : String :=
  String.mk (s.data.filter (fun c => c != '-'))

/-- A model of the JavaScript/JSON values that flow through the storage layer.
Strings, numbers, booleans, `null` and (nested) objects; enough to distinguish
string values from non-string JSON-serializable values, which is the
distinction `GASStorage.setItem` branches on. -/
inductive JValue where
  | jnull : JValue
  | jbool : Bool → JValue
  | jnum : Int → JValue
  | jstr : String → JValue
  | jobj : List (String × JValue) → JValue

mutual

/-- `JSON.stringify` on the modelled values (strings assumed free of characters
needing escapes, as in all keys/values the repository produces). -/
def JValue.stringify : JValue → String
  | .jnull => "null"
  | .jbool b => if b then "true" else "false"
  | .jnum n => intToStr n
  | .jstr s => "\"" ++ s ++ "\""
  | .jobj fs => "\x7b" ++ JValue.stringifyFields fs ++ "\x7d"

/-- Comma-separated `"key":value` renderings of an object's fields. -/
def JValue.stringifyFields : List (String × JValue) → String
  | [] => ""
  | [(k, v)] => "\"" ++ k ++ "\":" ++ JValue.stringify v
  | (k, v) :: f :: rest =>
      "\"" ++ k ++ "\":" ++ JValue.stringify v ++ "," ++ JValue.stringifyFields (f :: rest)

end

/-- Ambient effects the code reads: `new Date().toISOString()` (a string) and
the `new Date(a) > new Date(b)` comparison used by `handleGetSyncStatus`. -/
structure Env where
  now : String
  dateGt : String → String → Bool

/-- JS truthiness test for an optional string parameter: `!x` is true when the
parameter is absent (`undefined`) or the empty string. -/
def jsFalsy : Option String → Bool
  | none => true
  | some s => s == ""

/-- One data row of a store's sheet: columns `[key, value, timestamp, lastModified]`. -/
structure Row where
  key : String
  value : String
  timestamp : String
  lastModified : String
deriving DecidableEq, Repr

/-- A store's sheet, header row excluded.  The JS guard `data.length <= 1`
(only the header present) is `t = []` here. -/
abbrev Table := List Row

/-- An item returned by `handleGetAllItems`. -/
structure AllItem where
  key : String
  value : String
  timestamp : String
  lastModified : String
deriving DecidableEq, Repr

/-- An item returned by `handleGetDateRange` (adds the parsed-out date string). -/
structure RangeItem where
  key : String
  value : String
  date : String
  timestamp : String
  lastModified : String
deriving DecidableEq, Repr

/-- The JSON payloads the server places in an envelope's `data`/`error`/`message`
field.  Plain strings (`txt`) cover stored values and error/not-found messages;
the remaining constructors are the structured success payloads of the
individual handlers. -/
inductive PData where
  | txt : String → PData
  | setAck : String → String → PData
  | removeAck : String → PData
  | items : List AllItem → PData
  | rangeItems : List RangeItem → PData
  | pingInfo : String → String → String → PData
  | apiInfo : PData
  | backupAck : String → String → PData
  | syncStatus : Option String → Nat → String → PData
deriving DecidableEq, Repr

/-- The uniform response envelope `{status, timestamp, data?, error?, message?}`. -/
structure Response where
  status : String
  timestamp : String
  data : Option PData
  error : Option PData
  message : Option PData
deriving DecidableEq, Repr

/-- `createResponse(status, data)` from the GAS source: always sets `status`
and `timestamp`; stores the payload under `data` for `success`, under `error`
for `error`, under `message` for `not_found`.  (The optional third JS argument
is never passed anywhere in the source, so `response.error = error || data`
always stores `data`; it is omitted here.) -/
def createResponse (status : String) (d : PData) (env : Env) : Response :=
  ⟨status, env.now,
    if status == "success" then some d else none,
    if status == "error" then some d else none,
    if status == "not_found" then some d else none⟩

/-- The request parameters object; absent JS properties are `none`.
(`pfx` models the `prefix` parameter, whose literal name is a Lean keyword.) -/
structure Params where
  action : Option String
  key : Option String
  value : Option String
  storeId : Option String
  timestamp : Option String
  pfx : Option String
  startDate : Option String
  endDate : Option String
  targetDate : Option String
deriving Repr

/-- The `storeId || 'default'` idiom used by every handler. -/
def storeIdOr (sid : Option String) : String :=
  match sid with
  | none => "default"
  | some s => if s == "" then "default" else s

/-- The linear key scan shared by `handleGetItem`/`handleRemoveItem`/`handleSetItem`:
value of the first row whose key equals `k`. -/
def findRowValue : Table → String → Option String
  | [], _ => none
  | r :: rs, k => if r.key == k then some r.value else findRowValue rs k

/-- `handleSetItem`'s row update: overwrite the first row whose key matches, or
append a new row. -/
def setRow : Table → Row → Table
  | [], nr => [nr]
  | r :: rs, nr => if r.key == nr.key then nr :: rs else r :: setRow rs nr

/-- `handleRemoveItem`'s row deletion: drop the first row whose key matches. -/
def deleteRow : Table → String → Table
  | [], _ => []
  | r :: rs, k => if r.key == k then rs else r :: deleteRow rs k

/-- Server `handleSetItem(params)`: validates `key`/`value`, then overwrites the
matching row in place or appends `[key, value, timestamp || now, now]`.
Returns the response envelope together with the updated sheet. -/
def GAS.handleSetItem (ps : Params) (t : Table) (env : Env) : Response × Table :=
  if jsFalsy ps.key then
    (createResponse "error" (.txt "Key is required") env, t)
  else
    match ps.value with
    | none => (createResponse "error" (.txt "Value is required") env, t)
    | some v =>
        let k := ps.key.getD ""
        let ts := match ps.timestamp with
          | none => env.now
          | some s => if s == "" then env.now else s
        let t' := setRow t ⟨k, v, ts, env.now⟩
        (createResponse "success" (.setAck k env.now) env, t')

/-- Server `handleGetItem(params)`: `error` on a missing key parameter,
`not_found` on an empty sheet or a missing key, else `success` with the
stored value. -/
def GAS.handleGetItem (ps : Params) (t : Table) (env : Env) : Response :=
  if jsFalsy ps.key then
    createResponse "error" (.txt "Key is required") env
  else
    let k := ps.key.getD ""
    match t with
    | [] => createResponse "not_found" (.txt "No data found") env
    | _ :: _ =>
        match findRowValue t k with
        | some v => createResponse "success" (.txt v) env
        | none => createResponse "not_found" (.txt ("Key not found: " ++ k)) env

/-- Server `handleRemoveItem(params)`: deletes the first matching row;
`not_found` when the sheet is empty or the key is absent. -/
def GAS.handleRemoveItem (ps : Params) (t : Table) (env : Env) : Response × Table :=
  if jsFalsy ps.key then
    (createResponse "error" (.txt "Key is required") env, t)
  else
    let k := ps.key.getD ""
    match t with
    | [] => (createResponse "not_found" (.txt "No data found") env, t)
    | _ :: _ =>
        match findRowValue t k with
        | some _ => (createResponse "success" (.removeAck k) env, deleteRow t k)
        | none => (createResponse "not_found" (.txt ("Key not found: " ++ k)) env, t)

/-- Server `handleGetAllItems(params)`: rows whose key starts with the given
prefix (all rows when the prefix is absent/empty). -/
def GAS.handleGetAllItems (ps : Params) (t : Table) (env : Env) : Response :=
  let keep : Row → Bool := fun r =>
    if jsFalsy ps.pfx then true else strStartsWith r.key (ps.pfx.getD "")
  let its := (t.filter keep).map (fun r => AllItem.mk r.key r.value r.timestamp r.lastModified)
  createResponse "success" (.items its) env

/-! ### Calendar dates

`handleGetDateRange` and `handleGetPreviousYearData` parse `YYYY-MM-DD`
strings into JS `Date` objects and do day arithmetic on them.  Dates are
modelled as day numbers (days since 0400-03-01 of the proleptic Gregorian
calendar shifted so every quantity stays in `Nat`), using the standard
civil-calendar conversion; `toISOString().slice(0, 10)` is `formatDate`. -/

/-- Gregorian leap-year test. -/
def isLeap (y : Nat) : Bool :=
  y % 4 == 0 && (y % 100 != 0 || y % 400 == 0)

/-- Days in a month of a given year. -/
def daysInMonth (y m : Nat) : Nat :=
  if m == 2 then (if isLeap y then 29 else 28)
  else if m == 4 || m == 6 || m == 9 || m == 11 then 30
  else 31

/-- Day number of a civil date (years shifted by +400 internally so all
arithmetic is on `Nat`). -/
def toDayNumber (y m d : Nat) : Nat :=
  let ys := y + 400
  let yAdj := if m ≤ 2 then ys - 1 else ys
  let era := yAdj / 400
  let yoe := yAdj - era * 400
  let mp := (m + 9) % 12
  let doy := (153 * mp + 2) / 5 + d - 1
  let doe := yoe * 365 + yoe / 4 - yoe / 100 + doy
  era * 146097 + doe

/-- Civil date `(year, month, day)` of a day number. -/
def fromDayNumber (z : Nat) : Nat × Nat × Nat :=
  let era := z / 146097
  let doe := z - era * 146097
  let yoe := (doe - doe / 1460 + doe / 36524 - doe / 146096) / 365
  let y := yoe + era * 400
  let doy := doe - (365 * yoe + yoe / 4 - yoe / 100)
  let mp := (5 * doy + 2) / 153
  let d := doy - (153 * mp + 2) / 5 + 1
  let m := if mp < 10 then mp + 3 else mp - 9
  ((if m ≤ 2 then y + 1 else y) - 400, m, d)

/-- Zero-pad to two digits. -/
def pad2 (n : Nat) : String :=
  if n < 10 then "0" ++ natToStr n else natToStr n

/-- Zero-pad to four digits. -/
def pad4 (n : Nat) : String :=
  if n < 10 then "000" ++ natToStr n
  else if n < 100 then "00" ++ natToStr n
  else if n < 1000 then "0" ++ natToStr n
  else natToStr n

/-- `date.toISOString().slice(0, 10)`: the `YYYY-MM-DD` rendering of a day number. -/
def formatDate (z : Nat) : String :=
  let c := fromDayNumber z
  pad4 c.1 ++ "-" ++ pad2 c.2.1 ++ "-" ++ pad2 c.2.2

/-- `new Date(s)` on a date-only string: strict ISO `YYYY-MM-DD` with range
checks (V8 rejects out-of-range components such as `2023-02-31`); `none` is
an Invalid Date. -/
def parseDate (s : String) : Option Nat :=
  match strSplit '-' s with
  | [ys, ms, ds] =>
      match strToNat ys, strToNat ms, strToNat ds with
      | some y, some m, some d =>
          if ys.length == 4 && ms.length == 2 && ds.length == 2 &&
             1 ≤ m && m ≤ 12 && 1 ≤ d && d ≤ daysInMonth y m then
            some (toDayNumber y m d)
          else none
      | _, _, _ => none
  | _ => none

/-- `prevYear.setFullYear(target.getFullYear() - 1)`: keep month and
day-of-month, decrement the year.  `toDayNumber` extends smoothly past the
end of a month (JS normalizes Feb 29 of a non-leap year to Mar 1, and the
day-of-year formula here does the same). -/
def setFullYearMinus1 (z : Nat) : Nat :=
  let c := fromDayNumber z
  toDayNumber (c.1 - 1) c.2.1 c.2.2

/-- The `yousei:<storeId>:<date>` key built by `handleGetPreviousYearData`. -/
def youseiKey (sid : String) (z : Nat) : String :=
  "yousei:" ++ sid ++ ":" ++ formatDate z

/-- Server `handleGetDateRange(params)`: keep rows whose key starts with
`yousei:`, has at least three `:`-separated parts, and whose third part parses
to a date within `[start, end]` (inclusive); an Invalid start or end date makes
every comparison false, so nothing is kept. -/
def GAS.dateRangeFilter (t : Table) (s e : Nat) : List RangeItem :=
  t.filterMap (fun r =>
    if strStartsWith r.key "yousei:" then
      let parts := strSplit ':' r.key
      if parts.length ≥ 3 then
        let dateStr := parts.getD 2 ""
        match parseDate dateStr with
        | some d =>
            if s ≤ d && d ≤ e then
              some (RangeItem.mk r.key r.value dateStr r.timestamp r.lastModified)
            else none
        | none => none
      else none
    else none)

/-- Lexicographic (code-point) order on character lists: the order
`localeCompare` induces on the ASCII date strings compared here. -/
def charListLe : List Char → List Char → Bool
  | [], _ => true
  | _ :: _, [] => false
  | a :: as, b :: bs => if a < b then true else if b < a then false else charListLe as bs

/-- `a.localeCompare(b) <= 0` on ASCII strings. -/
def strLe (a b : String) : Bool := charListLe a.data b.data

/-- One insertion step of the sort. -/
def insertByDate (x : RangeItem) : List RangeItem → List RangeItem
  | [] => [x]
  | y :: ys => if strLe x.date y.date then x :: y :: ys else y :: insertByDate x ys

/-- `items.sort((a, b) => a.date.localeCompare(b.date))`: a stable sort,
ascending by the date substring (insertion sort, stable like V8's `sort`). -/
def GAS.sortByDate : List RangeItem → List RangeItem
  | [] => []
  | x :: xs => insertByDate x (GAS.sortByDate xs)

def GAS.handleGetDateRange (ps : Params) (t : Table) (env : Env) : Response :=
  let its :=
    match ps.startDate.bind parseDate, ps.endDate.bind parseDate with
    | some s, some e => GAS.dateRangeFilter t s e
    | _, _ => []
  createResponse "success" (.rangeItems (GAS.sortByDate its)) env

/-- Every handler in the source returns
`ContentService.createTextOutput(JSON.stringify(response))` — a TextOutput
object carrying only the serialized envelope; the `Response` values in this
file model the JSON *content* of that TextOutput (which is what doGet/doPost
hand to the transport and what the client parses).  `handleGetPreviousYearData`
is the one place that inspects a sibling handler's raw return value: it reads
`result.status` off the TextOutput object itself, and TextOutput has no
`status` property, so the access yields `undefined`.  `textOutputStatus`
models that property access. -/
def textOutputStatus (_ : Response) : Option String := none

/-- JS property access `result.data` on a TextOutput object: also `undefined`. -/
def textOutputData (_ : Response) : Option PData := none

/-- The probe hit test `result.status === 'success'` of
`handleGetPreviousYearData`: it compares the TextOutput's (undefined)
`status` against `'success'`, hence is always false. -/
def GAS.probeStatusIsSuccess (r : Response) : Bool :=
  textOutputStatus r == some "success"

/-- The params object `{key, storeId}` that `handleGetPreviousYearData`
passes to its nested `handleGetItem` probes (it carries no `action`). -/
def GAS.probeParams (k : String) (sid : Option String) : Params :=
  ⟨none, some k, none, sid, none, none, none, none, none⟩

/-- The inner loop of `handleGetPreviousYearData`: for each offset, probe the
day `offset` days before the one-year-prior date, then the day `offset` days
after it, via nested `handleGetItem` calls, testing
`prevResult.status === 'success'` / `nextResult.status === 'success'` on the
TextOutputs they return.  Because those tests read a property TextOutput does
not have, no probe can ever hit; the value a hit would deliver is the
TextOutput's (undefined) `data`. -/
def GAS.searchOffsets (ps : Params) (t : Table) (env : Env) (sid : String) (pz : Nat) :
    List Nat → Option (Option PData)
  | [] => none
  | o :: rest =>
      let prevResult :=
        GAS.handleGetItem (GAS.probeParams (youseiKey sid (pz - o)) ps.storeId) t env
      if GAS.probeStatusIsSuccess prevResult then some (textOutputData prevResult)
      else
        let nextResult :=
          GAS.handleGetItem (GAS.probeParams (youseiKey sid (pz + o)) ps.storeId) t env
        if GAS.probeStatusIsSuccess nextResult then some (textOutputData nextResult)
        else GAS.searchOffsets ps t env sid pz rest

/-- Server `handleGetPreviousYearData(params)`: an unparsable target date
makes `toISOString()` throw, caught into an `error` envelope; otherwise the
handler probes the same calendar date one year prior and then offsets
±1, ±2, ±3 days via nested `handleGetItem` calls — but it tests
`result.status === 'success'` on the TextOutput objects those calls return,
whose `status` is `undefined`, so every probe test fails and the handler
always answers `not_found`, even when a probed record exists.  The `success`
branches below mirror the source's dead code (their payload, the TextOutput's
undefined `data`, is defaulted); they are unreachable. -/
def GAS.handleGetPreviousYearData (ps : Params) (t : Table) (env : Env) : Response :=
  match ps.targetDate.bind parseDate with
  | none =>
      createResponse "error" (.txt "Failed to get previous year data: invalid date") env
  | some tz =>
      let sid := storeIdOr ps.storeId
      let pz := setFullYearMinus1 tz
      let result := GAS.handleGetItem (GAS.probeParams (youseiKey sid pz) ps.storeId) t env
      if GAS.probeStatusIsSuccess result then
        createResponse "success" ((textOutputData result).getD (.txt "")) env
      else
        match GAS.searchOffsets ps t env sid pz [1, 2, 3] with
        | some d => createResponse "success" (d.getD (.txt "")) env
        | none => createResponse "not_found" (.txt "Previous year data not found") env

/-- Server `handleCreateBackup(params)`: copies the sheet to
`backup_<storeId>_<yyyymmdd>` (replacing a same-named sheet); the copy lives
outside the store table, so only the acknowledgement is observable here. -/
def GAS.handleCreateBackup (ps : Params) (env : Env) : Response :=
  let name := "backup_" ++ storeIdOr ps.storeId ++ "_" ++ removeDashes (env.now.take 10)
  createResponse "success" (.backupAck name env.now) env

/-- Server `handleGetSyncStatus(params)`: row count plus the maximum
`lastModified` under the JS `new Date` comparison (`env.dateGt`), skipping
falsy cells. -/
def GAS.handleGetSyncStatus (ps : Params) (t : Table) (env : Env) : Response :=
  let lastMod := t.foldl
    (fun acc r =>
      if r.lastModified != "" &&
         (match acc with | none => true | some l => env.dateGt r.lastModified l) then
        some r.lastModified
      else acc)
    none
  createResponse "success" (.syncStatus lastMod t.length (storeIdOr ps.storeId)) env

/-- Server `handlePing()`. -/
def GAS.handlePing (env : Env) : Response :=
  createResponse "success" (.pingInfo "GAS Web App is running" "1.0" env.now) env

/-- Server `handleRequest(params)`: the single-entry router.  The
spreadsheet-access result is passed in as `sheet : Except String Table`,
modelling `getOrCreateSheet`/`getDataRange` which may throw; each handler's
own `try/catch` turns that failure into an `error` envelope (`ping` and the
no-action info response never touch the sheet).  Mutating handlers return
only their envelope here, as `handleRequest` does. -/
def GAS.handleRequest (ps : Params) (sheet : Except String Table) (env : Env) : Response :=
  match ps.action with
  | none => createResponse "success" (.apiInfo) env
  | some a =>
      if a == "ping" then GAS.handlePing env
      else if a == "setItem" then
        match sheet with
        | .error e => createResponse "error" (.txt ("Failed to save item: " ++ e)) env
        | .ok t => (GAS.handleSetItem ps t env).1
      else if a == "getItem" then
        match sheet with
        | .error e => createResponse "error" (.txt ("Failed to get item: " ++ e)) env
        | .ok t => GAS.handleGetItem ps t env
      else if a == "removeItem" then
        match sheet with
        | .error e => createResponse "error" (.txt ("Failed to remove item: " ++ e)) env
        | .ok t => (GAS.handleRemoveItem ps t env).1
      else if a == "getAllItems" then
        match sheet with
        | .error e => createResponse "error" (.txt ("Failed to get all items: " ++ e)) env
        | .ok t => GAS.handleGetAllItems ps t env
      else if a == "getDateRange" then
        match sheet with
        | .error e => createResponse "error" (.txt ("Failed to get date range: " ++ e)) env
        | .ok t => GAS.handleGetDateRange ps t env
      else if a == "getPreviousYearData" then
        match sheet with
        | .error _ =>
            -- the nested handleGetItem calls swallow the sheet failure into
            -- error envelopes, which the offset scan treats as misses
            createResponse "not_found" (.txt "Previous year data not found") env
        | .ok t => GAS.handleGetPreviousYearData ps t env
      else if a == "createBackup" then
        match sheet with
        | .error e => createResponse "error" (.txt ("Failed to create backup: " ++ e)) env
        | .ok _ => GAS.handleCreateBackup ps env
      else if a == "getSyncStatus" then
        match sheet with
        | .error e => createResponse "error" (.txt ("Failed to get sync status: " ++ e)) env
        | .ok t => GAS.handleGetSyncStatus ps t env
      else createResponse "error" (.txt ("Unknown action: " ++ a)) env

/-! ### Client side: `BaseStorage` helpers (base-storage.js) -/

/-- `Array.prototype.join('.')`. -/
def joinDots : List String → String
  | [] => ""
  | [x] => x
  | x :: y :: rest => x ++ "." ++ joinDots (y :: rest)

/-- `BaseStorage.generateKey(prefix, id, suffix = '')`:
`[prefix, id, suffix].filter(Boolean).join('.')`. -/
def BaseStorage.generateKey (p i suffix : String) : String :=
  joinDots ([p, i, suffix].filter (fun s => s != ""))

/-- `BaseStorage.validateData`: throws when the data is `null`/`undefined`
(every modelled value is JSON-serializable, so the stringify probe passes). -/
def BaseStorage.validateData (v : JValue) : Except String Unit :=
  match v with
  | .jnull => .error "Data cannot be null or undefined"
  | _ => .ok ()

/-- The retry loop of `BaseStorage.withRetry(operation, maxRetries)`.
`op k` is the outcome of attempt `k`; the second component collects the
back-off delays slept between attempts, in ms.  `remaining` counts the
attempts still allowed, so `remaining > 0` is the JS `attempt < maxRetries`. -/
def BaseStorage.withRetryGo (op : Nat → Except String α) : Nat → Nat → Except String α × List Nat
  | k, remaining =>
    match op k, remaining with
    | .ok a, _ => (.ok a, [])
    | .error e, 0 => (.error e, [])
    | .error _, rem + 1 =>
        let next := BaseStorage.withRetryGo op (k + 1) rem
        (next.1, min (1000 * 2 ^ k) 5000 :: next.2)

/-- `BaseStorage.withRetry`: run the operation up to `maxRetries + 1` times,
sleeping `min(1000 * 2^attempt, 5000)` ms between attempts, re-throwing the
last error once the attempts are exhausted. -/
def BaseStorage.withRetry (op : Nat → Except String α) (maxRetries : Nat) :
    Except String α × List Nat :=
  BaseStorage.withRetryGo op 0 maxRetries

/-! ### Client side: `GASStorage` (gas-storage.js) -/

/-- `error.message.includes('timeout') || error.message.includes('network')`:
the condition under which `makeRequest` retries. -/
def isRetryableMsg (msg : String) : Bool :=
  strContains msg "timeout" || strContains msg "network"

/-- The inline retry recursion of `GASStorage.makeRequest`.  `attempt k` is the
outcome of the `k`-th fetch (a parsed envelope, or a thrown error whose message
already reflects the `AbortError -> 'Request timeout'` rewrite); the second
component collects the `1000 * (retryCount + 1)` ms sleeps.  `remaining` counts
retries still allowed, so `remaining > 0` is the JS `retryCount < this.retryCount`. -/
def GASStorage.makeRequestGo (attempt : Nat → Except String Response) :
    Nat → Nat → Except String Response × List Nat
  | k, remaining =>
    match attempt k, remaining with
    | .ok r, _ => (.ok r, [])
    | .error e, 0 => (.error e, [])
    | .error e, rem + 1 =>
        if isRetryableMsg e then
          let next := GASStorage.makeRequestGo attempt (k + 1) rem
          (next.1, 1000 * (k + 1) :: next.2)
        else (.error e, [])

/-- `GASStorage.makeRequest(method, data)`, started at `retryCount = 0` with
the configured retry limit (`this.retryCount`, default 3). -/
def GASStorage.makeRequest (attempt : Nat → Except String Response) (retryLimit : Nat) :
    Except String Response × List Nat :=
  GASStorage.makeRequestGo attempt 0 retryLimit

/-- The string put on the wire by `GASStorage.setItem`:
`typeof value === 'string' ? value : JSON.stringify(value)`. -/
def GASStorage.wireValue : JValue → String
  | .jstr s => s
  | v => JValue.stringify v

/-- `result.error || dflt`, the message used when a non-success envelope is
turned into a thrown error.  The server only ever places strings in the
`error` field. -/
def jsErrMsg : Option PData → String → String
  | some (.txt s), dflt => if s == "" then dflt else s
  | some _, dflt => dflt
  | none, dflt => dflt

/-- The JS value a client sees in an envelope's `data` field for the
`getItem`/`getPreviousYearData` actions, where the server always stores the
raw value string. -/
def respDataToJValue : Option PData → Option JValue
  | some (.txt s) => some (.jstr s)
  | some _ => none
  | none => none

/-- `GASStorage.setItem(key, value)` composed with the server over a reliable
transport against the sheet `t` (initialization state explicit): validates the
data, builds the storage key `generateKey(storeId, key)`, POSTs a `setItem`
action, returns `true` on a `success` envelope and throws otherwise.  Second
component: the server sheet afterwards. -/
def GASStorage.setItem (initialized : Bool) (storeId key : String) (v : JValue)
    (t : Table) (env : Env) : Except String Bool × Table :=
  if initialized = false then (.error "GAS Storage not initialized", t)
  else
    match BaseStorage.validateData v with
    | .error e => (.error e, t)
    | .ok _ =>
        let storageKey := BaseStorage.generateKey storeId key ""
        -- params: action, key, value, storeId, timestamp, prefix, startDate, endDate, targetDate
        let ps : Params := ⟨some "setItem", some storageKey, some (GASStorage.wireValue v),
          some storeId, some env.now, none, none, none, none⟩
        let rt := GAS.handleSetItem ps t env
        if rt.1.status == "success" then (.ok true, rt.2)
        else (.error (jsErrMsg rt.1.error "Save failed"), rt.2)

/-- The `try` body of `GASStorage.getItem(key)` given the transport outcome
`req`: throws when uninitialized, re-throws a transport failure, translates
`success` to the data value, `not_found` to `null`, anything else to a thrown
`result.error || 'Get failed'`. -/
def GASStorage.getItemTry (initialized : Bool) (req : Except String Response) :
    Except String (Option JValue) :=
  if initialized = false then .error "GAS Storage not initialized"
  else
    match req with
    | .error e => .error e
    | .ok result =>
        if result.status == "success" then .ok (respDataToJValue result.data)
        else if result.status == "not_found" then .ok none
        else .error (jsErrMsg result.error "Get failed")

/-- `GASStorage.getItem`'s `catch` clause: any throw from the `try` body is
logged and degraded to `null`. -/
def GASStorage.getItemRun (initialized : Bool) (req : Except String Response) :
    Except String (Option JValue) :=
  match GASStorage.getItemTry initialized req with
  | .ok v => .ok v
  | .error _ => .ok none

/-- `GASStorage.getItem(key)` over an abstract transport `send` mapping the GET
parameter list to the request outcome. -/
def GASStorage.getItem (initialized : Bool)
    (send : List (String × String) → Except String Response) (storeId key : String) :
    Except String (Option JValue) :=
  let storageKey := BaseStorage.generateKey storeId key ""
  GASStorage.getItemRun initialized
    (send [("action", "getItem"), ("key", storageKey), ("storeId", storeId)])

/-- `GASStorage.getItem(key)` composed with the server over a reliable
transport against the sheet `t`. -/
def GASStorage.getItemS (initialized : Bool) (storeId key : String) (t : Table) (env : Env) :
    Except String (Option JValue) :=
  GASStorage.getItem initialized
    (fun ps => .ok (GAS.handleGetItem
      ⟨some "getItem", (ps.lookup "key"), none, some storeId, none, none, none, none, none⟩ t env))
    storeId key

/-- `GASStorage.removeItem(key)` composed with the server: NOTE the source
sends the raw `key` parameter, not `generateKey(storeId, key)`. -/
def GASStorage.removeItem (initialized : Bool) (storeId key : String) (t : Table) (env : Env) :
    Except String Bool × Table :=
  if initialized = false then (.error "GAS Storage not initialized", t)
  else
    let ps : Params := ⟨some "removeItem", some key, none, some storeId, none, none, none, none, none⟩
    let rt := GAS.handleRemoveItem ps t env
    if rt.1.status == "success" then (.ok true, rt.2)
    else (.error (jsErrMsg rt.1.error "Remove failed"), rt.2)

/-- The `try` body of `GASStorage.getAllItems(prefix)`:
`success -> result.data || []`, anything else thrown. -/
def GASStorage.getAllItemsTry (initialized : Bool) (req : Except String Response) :
    Except String (List AllItem) :=
  if initialized = false then .error "GAS Storage not initialized"
  else
    match req with
    | .error e => .error e
    | .ok result =>
        if result.status == "success" then
          .ok (match result.data with | some (.items xs) => xs | _ => [])
        else .error (jsErrMsg result.error "GetAll failed")

/-- `GASStorage.getAllItems(prefix)` over an abstract transport; the `catch`
clause degrades every failure to `[]`. -/
def GASStorage.getAllItems (initialized : Bool)
    (send : List (String × String) → Except String Response) (pfx storeId : String) :
    Except String (List AllItem) :=
  match GASStorage.getAllItemsTry initialized
      (send [("action", "getAllItems"), ("prefix", pfx), ("storeId", storeId)]) with
  | .ok xs => .ok xs
  | .error _ => .ok []

/-- `save(key, value)` / `load(key)` round trip on an initialized backend with
a fixed server sheet: what `load` hands back after `save` succeeded. -/
def GASStorage.roundTrip (t : Table) (storeId key : String) (v : JValue) (env : Env) :
    Except String (Option JValue) :=
  match GASStorage.setItem true storeId key v t env with
  | (Except.error e, _) => .error e
  | (Except.ok _, t1) => GASStorage.getItemS true storeId key t1 env

/-! ### Client side: `GDriveStorage` (the unnamed gdrive-storage source) -/

/-- The browser's `localStorage`, as an association list. -/
abbrev LS := List (String × String)

/-- `localStorage.setItem`: overwrite or append. -/
def lsSet : LS → String → String → LS
  | [], k, v => [(k, v)]
  | (k', v') :: rest, k, v => if k' == k then (k, v) :: rest else (k', v') :: lsSet rest k v

/-- `localStorage.getItem` (`none` is JS `null`). -/
def lsGet : LS → String → Option String
  | [], _ => none
  | (k', v') :: rest, k => if k' == k then some v' else lsGet rest k

/-- `localStorage.removeItem`. -/
def lsRemove : LS → String → LS
  | [], _ => []
  | (k', v') :: rest, k => if k' == k then rest else (k', v') :: lsRemove rest k

/-- The `try` body of `GDriveStorage.setItem`: throws when uninitialized,
throws when there is no cached token and interactive authentication fails,
then runs the find/update-or-create pipeline (`cloudOp`) and returns `true`. -/
def GDriveStorage.setItemTry (initialized hasToken authOk : Bool)
    (cloudOp : Except String Unit) : Except String Bool :=
  if initialized = false then .error "GDrive Storage not initialized"
  else if hasToken = false && authOk = false then .error "Authentication failed"
  else
    match cloudOp with
    | .error e => .error e
    | .ok _ => .ok true

/-- `GDriveStorage.setItem(key, value)`: the `catch` clause falls back to
`localStorage.setItem(key, value)` and returns `false`. -/
def GDriveStorage.setItem (initialized hasToken authOk : Bool)
    (cloudOp : Except String Unit) (ls : LS) (key value : String) : Bool × LS :=
  match GDriveStorage.setItemTry initialized hasToken authOk cloudOp with
  | .ok b => (b, ls)
  | .error _ => (false, lsSet ls key value)

/-- The `try` body of `GDriveStorage.getItem`: `cloudOp` is the
find/download/parse pipeline (`.ok none` = no file found, `findFile` having
swallowed its own errors; `.error` = download or JSON parse threw). -/
def GDriveStorage.getItemTry (initialized hasToken authOk : Bool)
    (cloudOp : Except String (Option String)) : Except String (Option String) :=
  if initialized = false then .error "GDrive Storage not initialized"
  else if hasToken = false && authOk = false then .error "Authentication failed"
  else cloudOp

/-- `GDriveStorage.getItem(key)`: the `catch` clause falls back to
`localStorage.getItem(key)`. -/
def GDriveStorage.getItem (initialized hasToken authOk : Bool)
    (cloudOp : Except String (Option String)) (ls : LS) (key : String) : Option String :=
  match GDriveStorage.getItemTry initialized hasToken authOk cloudOp with
  | .ok v => v
  | .error _ => lsGet ls key

/-- The `try` body of `GDriveStorage.removeItem`: deletes the file when one is
found and returns `true` either way. -/
def GDriveStorage.removeItemTry (initialized hasToken authOk : Bool)
    (cloudOp : Except String Unit) : Except String Bool :=
  if initialized = false then .error "GDrive Storage not initialized"
  else if hasToken = false && authOk = false then .error "Authentication failed"
  else
    match cloudOp with
    | .error e => .error e
    | .ok _ => .ok true

/-- `GDriveStorage.removeItem(key)`: the `catch` clause falls back to
`localStorage.removeItem(key)` and returns `false`. -/
def GDriveStorage.removeItem (initialized hasToken authOk : Bool)
    (cloudOp : Except String Unit) (ls : LS) (key : String) : Bool × LS :=
  match GDriveStorage.removeItemTry initialized hasToken authOk cloudOp with
  | .ok b => (b, ls)
  | .error _ => (false, lsRemove ls key)


/-! ## Helper lemmas: retry loops -/

lemma BaseStorage.withRetryGo_ok (op : Nat → Except String α) (a : α) :
    ∀ (n k remaining : Nat), n ≤ remaining →
      (∀ j, j < n → ∃ e, op (k + j) = .error e) → op (k + n) = .ok a →
      BaseStorage.withRetryGo op k remaining =
        (.ok a, (List.range n).map (fun i => min (1000 * 2 ^ (k + i)) 5000)) := by
  intro n
  induction n with
  | zero =>
      intro k remaining _ _ hok
      simp only [Nat.add_zero] at hok
      rw [BaseStorage.withRetryGo.eq_def]
      dsimp only
      rw [hok]
      simp
  | succ n ih =>
      intro k remaining hle herr hok
      obtain ⟨e0, he0⟩ := herr 0 (Nat.succ_pos n)
      simp only [Nat.add_zero] at he0
      obtain ⟨rem, rfl⟩ : ∃ rem, remaining = rem + 1 := ⟨remaining - 1, by omega⟩
      have ihr := ih (k + 1) rem (by omega)
        (fun j hj => by
          obtain ⟨e, he⟩ := herr (j + 1) (by omega)
          exact ⟨e, by rw [show k + 1 + j = k + (j + 1) by omega]; exact he⟩)
        (by rw [show k + 1 + n = k + (n + 1) by omega]; exact hok)
      rw [BaseStorage.withRetryGo.eq_def]
      dsimp only
      rw [he0]
      simp only [ihr]
      rw [List.range_succ_eq_map, List.map_cons, List.map_map]
      refine congrArg (Prod.mk _) ?_
      refine congrArg₂ List.cons (by simp) ?_
      refine List.map_congr_left (fun i _ => ?_)
      simp only [Function.comp]
      rw [show k + 1 + i = k + (i + 1) by omega]

lemma BaseStorage.withRetryGo_err (op : Nat → Except String α) (err : Nat → String) :
    ∀ (remaining k : Nat), (∀ j, j ≤ remaining → op (k + j) = .error (err (k + j))) →
      BaseStorage.withRetryGo op k remaining =
        (.error (err (k + remaining)),
          (List.range remaining).map (fun i => min (1000 * 2 ^ (k + i)) 5000)) := by
  intro remaining
  induction remaining with
  | zero =>
      intro k h
      have h0 := h 0 (Nat.le_refl 0)
      simp only [Nat.add_zero] at h0
      rw [BaseStorage.withRetryGo.eq_def]
      dsimp only
      rw [h0]
      simp
  | succ rem ih =>
      intro k h
      have h0 := h 0 (Nat.zero_le _)
      simp only [Nat.add_zero] at h0
      have ihr := ih (k + 1) (fun j hj => by
        have hh := h (j + 1) (by omega)
        rw [show k + 1 + j = k + (j + 1) by omega]
        exact hh)
      rw [BaseStorage.withRetryGo.eq_def]
      dsimp only
      rw [h0]
      simp only [ihr]
      rw [List.range_succ_eq_map, List.map_cons, List.map_map]
      refine congrArg₂ Prod.mk (congrArg Except.error (congrArg err (by omega))) ?_
      refine congrArg₂ List.cons (by simp) ?_
      refine List.map_congr_left (fun i _ => ?_)
      simp only [Function.comp]
      rw [show k + 1 + i = k + (i + 1) by omega]

lemma GASStorage.makeRequestGo_ok (attempt : Nat → Except String Response) (r : Response) :
    ∀ (n k remaining : Nat), n ≤ remaining →
      (∀ j, j < n → ∃ e, attempt (k + j) = .error e ∧ isRetryableMsg e = true) →
      attempt (k + n) = .ok r →
      GASStorage.makeRequestGo attempt k remaining =
        (.ok r, (List.range n).map (fun i => 1000 * (k + i + 1))) := by
  intro n
  induction n with
  | zero =>
      intro k remaining _ _ hok
      simp only [Nat.add_zero] at hok
      rw [GASStorage.makeRequestGo.eq_def]
      dsimp only
      rw [hok]
      simp
  | succ n ih =>
      intro k remaining hle herr hok
      obtain ⟨e0, he0, hr0⟩ := herr 0 (Nat.succ_pos n)
      simp only [Nat.add_zero] at he0
      obtain ⟨rem, rfl⟩ : ∃ rem, remaining = rem + 1 := ⟨remaining - 1, by omega⟩
      have ihr := ih (k + 1) rem (by omega)
        (fun j hj => by
          obtain ⟨e, he, hr⟩ := herr (j + 1) (by omega)
          exact ⟨e, by rw [show k + 1 + j = k + (j + 1) by omega]; exact he, hr⟩)
        (by rw [show k + 1 + n = k + (n + 1) by omega]; exact hok)
      rw [GASStorage.makeRequestGo.eq_def]
      dsimp only
      rw [he0]
      dsimp only
      rw [if_pos hr0]
      simp only [ihr]
      rw [List.range_succ_eq_map, List.map_cons, List.map_map]
      refine congrArg (Prod.mk _) ?_
      refine congrArg₂ List.cons (by simp) ?_
      refine List.map_congr_left (fun i _ => ?_)
      simp only [Function.comp]
      rw [show k + 1 + i = k + (i + 1) by omega]

lemma GASStorage.makeRequestGo_err (attempt : Nat → Except String Response) (err : Nat → String) :
    ∀ (remaining k : Nat),
      (∀ j, j ≤ remaining →
        attempt (k + j) = .error (err (k + j)) ∧ isRetryableMsg (err (k + j)) = true) →
      GASStorage.makeRequestGo attempt k remaining =
        (.error (err (k + remaining)), (List.range remaining).map (fun i => 1000 * (k + i + 1))) := by
  intro remaining
  induction remaining with
  | zero =>
      intro k h
      obtain ⟨h0, _⟩ := h 0 (Nat.le_refl 0)
      simp only [Nat.add_zero] at h0
      rw [GASStorage.makeRequestGo.eq_def]
      dsimp only
      rw [h0]
      simp
  | succ rem ih =>
      intro k h
      obtain ⟨h0, hr0⟩ := h 0 (Nat.zero_le _)
      simp only [Nat.add_zero] at h0 hr0
      have ihr := ih (k + 1) (fun j hj => by
        have hh := h (j + 1) (by omega)
        rw [show k + 1 + j = k + (j + 1) by omega]
        exact hh)
      rw [GASStorage.makeRequestGo.eq_def]
      dsimp only
      rw [h0]
      dsimp only
      rw [if_pos hr0]
      simp only [ihr]
      rw [List.range_succ_eq_map, List.map_cons, List.map_map]
      refine congrArg₂ Prod.mk (congrArg Except.error (congrArg err (by omega))) ?_
      refine congrArg₂ List.cons (by simp) ?_
      refine List.map_congr_left (fun i _ => ?_)
      simp only [Function.comp]
      rw [show k + 1 + i = k + (i + 1) by omega]

lemma GASStorage.makeRequestGo_noRetry (attempt : Nat → Except String Response) (e : String)
    (remaining k : Nat) (he : attempt k = .error e) (hr : isRetryableMsg e = false) :
    GASStorage.makeRequestGo attempt k remaining = (.error e, []) := by
  cases remaining with
  | zero =>
      rw [GASStorage.makeRequestGo.eq_def]
      dsimp only
      rw [he]
  | succ rem =>
      rw [GASStorage.makeRequestGo.eq_def]
      dsimp only
      rw [he]
      dsimp only
      rw [if_neg (by simp [hr])]

/-! ## C6: the shared retry helper -/

/-- C6: `BaseStorage.withRetry` with `maxRetries = m`: an operation failing
`n < m + 1` times and then succeeding makes the helper return the success
result, having slept exactly `min(1000 * 2^i, 5000)` ms before retry attempt
`i` for `i = 0, …, n-1`; an operation failing on all `m + 1` attempts makes
the helper throw the last attempt's error after the full back-off schedule
`min(1000 * 2^i, 5000)` for `i = 0, …, m-1`. -/
theorem BaseStorage.withRetry_spec (op : Nat → Except String α) (m : Nat) :
    (∀ (n : Nat) (a : α), n ≤ m → (∀ j, j < n → ∃ e, op j = .error e) → op n = .ok a →
        BaseStorage.withRetry op m =
          (.ok a, (List.range n).map (fun i => min (1000 * 2 ^ i) 5000))) ∧
    (∀ err : Nat → String, (∀ j, j ≤ m → op j = .error (err j)) →
        BaseStorage.withRetry op m =
          (.error (err m), (List.range m).map (fun i => min (1000 * 2 ^ i) 5000))) := by
  constructor
  · intro n a hn herr hok
    have h := BaseStorage.withRetryGo_ok op a n 0 m hn
      (fun j hj => by simpa using herr j hj) (by simpa using hok)
    simpa using h
  · intro err herr
    have h := BaseStorage.withRetryGo_err op err m 0 (fun j hj => by simpa using herr j hj)
    simpa using h

/-- Witness for C6: an operation failing twice then succeeding returns the
success value after back-off delays 1000 and 2000 ms; one failing on all four
attempts throws the final error after delays 1000, 2000, 4000 ms. -/
theorem BaseStorage.withRetry_spec_witness :
    BaseStorage.withRetry (fun k => if k < 2 then Except.error "boom" else Except.ok 42) 3 =
      (Except.ok 42, [1000, 2000]) ∧
    BaseStorage.withRetry (fun _ => (Except.error "boom" : Except String Nat)) 3 =
      (Except.error "boom", [1000, 2000, 4000]) := by
  constructor
  · have h := (BaseStorage.withRetry_spec
        (fun k => if k < 2 then Except.error "boom" else Except.ok (42 : Nat)) 3).1 2 42
      (by omega) (fun j hj => ⟨"boom", by simp [hj]⟩) (by simp)
    rw [h]
    rfl
  · have h := (BaseStorage.withRetry_spec (fun _ => (Except.error "boom" : Except String Nat)) 3).2
      (fun _ => "boom") (fun j _ => rfl)
    rw [h]
    rfl

/-! ## C4: the client request retry -/

/-- C4 counterexample: with every attempt failing on a timeout and the default
retry limit 3, the delays `GASStorage.makeRequest` actually sleeps are
`1000 * (attempt + 1)` ms — `[1000, 2000, 3000]` — not the claimed exponential
schedule `min(1000 * 2^attempt, 5000)` = `[1000, 2000, 4000]` of the shared
retry helper `BaseStorage.withRetry`, whose schedule it also differs from. -/
theorem GASStorage.makeRequest_backoff_counterexample :
    (GASStorage.makeRequest (fun _ => .error "Request timeout") 3).2 = [1000, 2000, 3000] ∧
    (List.range 3).map (fun i => min (1000 * 2 ^ i) 5000) = [1000, 2000, 4000] ∧
    (GASStorage.makeRequest (fun _ => .error "Request timeout") 3).2 ≠
      (List.range 3).map (fun i => min (1000 * 2 ^ i) 5000) ∧
    (GASStorage.makeRequest (fun _ => .error "Request timeout") 3).2 ≠
      (BaseStorage.withRetry (fun _ => (.error "Request timeout" : Except String Response)) 3).2 := by
  refine ⟨rfl, by decide, by decide, by decide⟩

/-- C4 (amended): `GASStorage.makeRequest` retries inline (not via
`BaseStorage.withRetry`): a first-attempt success returns immediately with no
delay; an error whose message contains neither `timeout` nor `network`
propagates immediately without any retry; errors whose message contains
`timeout` or `network` are retried up to 3 additional attempts with a *linear*
delay of `1000 * (attempt + 1)` ms before each retry, returning the first
success; and after 4 such failing attempts the last error propagates, the
slept delays having been 1000, 2000, 3000 ms. -/
theorem GASStorage.makeRequest_inline_retry (attempt : Nat → Except String Response) :
    (∀ r, attempt 0 = .ok r → GASStorage.makeRequest attempt 3 = (.ok r, [])) ∧
    (∀ e, attempt 0 = .error e → isRetryableMsg e = false →
        GASStorage.makeRequest attempt 3 = (.error e, [])) ∧
    (∀ (n : Nat) (r : Response), n ≤ 3 →
        (∀ j, j < n → ∃ e, attempt j = .error e ∧ isRetryableMsg e = true) →
        attempt n = .ok r →
        GASStorage.makeRequest attempt 3 =
          (.ok r, (List.range n).map (fun i => 1000 * (i + 1)))) ∧
    (∀ err : Nat → String,
        (∀ j, j ≤ 3 → attempt j = .error (err j) ∧ isRetryableMsg (err j) = true) →
        GASStorage.makeRequest attempt 3 = (.error (err 3), [1000, 2000, 3000])) := by
  refine ⟨?_, ?_, ?_, ?_⟩
  · intro r hok
    have h := GASStorage.makeRequestGo_ok attempt r 0 0 3 (by omega)
      (fun j hj => absurd hj (by omega)) hok
    simpa using h
  · intro e he hr
    exact GASStorage.makeRequestGo_noRetry attempt e 3 0 he hr
  · intro n r hn herr hok
    have h := GASStorage.makeRequestGo_ok attempt r n 0 3 hn
      (fun j hj => by simpa using herr j hj) (by simpa using hok)
    simpa using h
  · intro err herr
    have h := GASStorage.makeRequestGo_err attempt err 3 0 (fun j hj => by simpa using herr j hj)
    simpa using h

/-- Witness for C4 (amended): two network-class failures then a success yield
the success envelope after sleeping 1000 and 2000 ms. -/
theorem GASStorage.makeRequest_inline_retry_witness :
    GASStorage.makeRequest
      (fun k => if k < 2 then Except.error "network error"
                else Except.ok (⟨"success", "ts", none, none, none⟩ : Response)) 3 =
      (Except.ok (⟨"success", "ts", none, none, none⟩ : Response), [1000, 2000]) := by
  have h := (GASStorage.makeRequest_inline_retry
      (fun k => if k < 2 then Except.error "network error"
                else Except.ok (⟨"success", "ts", none, none, none⟩ : Response))).2.2.1 2
      ⟨"success", "ts", none, none, none⟩ (by omega)
      (fun j hj => ⟨"network error", by simp [hj], by decide⟩) (by simp)
  rw [h]
  rfl

/-! ## C3: the CloudFileBackend fallback policy -/

/-- C3 counterexample: on a concrete failing cloud operation, `setItem`
returns `false`, while on a succeeding one it returns `true` — the caller can
distinguish "saved to cloud" from "fell back to local" by the return value,
so the fallback is not indistinguishable from success. -/
theorem GDriveStorage.fallback_counterexample :
    (GDriveStorage.setItem true true true (Except.error "Quota exceeded") [] "k" "v").1 = false ∧
    (GDriveStorage.setItem true true true (Except.ok ()) [] "k" "v").1 = true ∧
    (GDriveStorage.setItem true true true (Except.error "Quota exceeded") [] "k" "v").1 ≠
      (GDriveStorage.setItem true true true (Except.ok ()) [] "k" "v").1 := by
  refine ⟨rfl, rfl, by decide⟩

/-- C3 (amended): every failure mode of a `GDriveStorage` operation
(uninitialized backend, failed interactive authentication, or a thrown cloud
call) is caught and silently degraded to the corresponding `localStorage`
operation — nothing propagates to the caller — but `setItem` and `removeItem`
return `false` in the fallback case versus `true` on cloud success, so the
two outcomes are distinguishable; only `getItem`'s fallback (the local value)
is shaped like its success result. -/
theorem GDriveStorage.fallback_spec (init hasToken authOk : Bool)
    (opW opD : Except String Unit) (opR : Except String (Option String))
    (ls : LS) (k v : String) :
    ((init = true → (hasToken = true ∨ authOk = true) → opW = .ok () →
        GDriveStorage.setItem init hasToken authOk opW ls k v = (true, ls)) ∧
     (init = false →
        GDriveStorage.setItem init hasToken authOk opW ls k v = (false, lsSet ls k v)) ∧
     (hasToken = false → authOk = false →
        GDriveStorage.setItem init hasToken authOk opW ls k v = (false, lsSet ls k v)) ∧
     (∀ e, opW = .error e →
        GDriveStorage.setItem init hasToken authOk opW ls k v = (false, lsSet ls k v))) ∧
    ((init = true → (hasToken = true ∨ authOk = true) → opD = .ok () →
        GDriveStorage.removeItem init hasToken authOk opD ls k = (true, ls)) ∧
     (init = false →
        GDriveStorage.removeItem init hasToken authOk opD ls k = (false, lsRemove ls k)) ∧
     (hasToken = false → authOk = false →
        GDriveStorage.removeItem init hasToken authOk opD ls k = (false, lsRemove ls k)) ∧
     (∀ e, opD = .error e →
        GDriveStorage.removeItem init hasToken authOk opD ls k = (false, lsRemove ls k))) ∧
    ((init = true → (hasToken = true ∨ authOk = true) → ∀ w, opR = .ok w →
        GDriveStorage.getItem init hasToken authOk opR ls k = w) ∧
     (init = false → GDriveStorage.getItem init hasToken authOk opR ls k = lsGet ls k) ∧
     (hasToken = false → authOk = false →
        GDriveStorage.getItem init hasToken authOk opR ls k = lsGet ls k) ∧
     (∀ e, opR = .error e →
        GDriveStorage.getItem init hasToken authOk opR ls k = lsGet ls k)) := by
  refine ⟨⟨?_, ?_, ?_, ?_⟩, ⟨?_, ?_, ?_, ?_⟩, ⟨?_, ?_, ?_, ?_⟩⟩
  · rintro rfl hauth rfl
    cases hasToken <;> cases authOk <;>
      simp_all [GDriveStorage.setItem, GDriveStorage.setItemTry]
  · rintro rfl
    simp [GDriveStorage.setItem, GDriveStorage.setItemTry]
  · rintro rfl rfl
    cases init <;> simp [GDriveStorage.setItem, GDriveStorage.setItemTry]
  · rintro e rfl
    cases init <;> cases hasToken <;> cases authOk <;>
      simp [GDriveStorage.setItem, GDriveStorage.setItemTry]
  · rintro rfl hauth rfl
    cases hasToken <;> cases authOk <;>
      simp_all [GDriveStorage.removeItem, GDriveStorage.removeItemTry]
  · rintro rfl
    simp [GDriveStorage.removeItem, GDriveStorage.removeItemTry]
  · rintro rfl rfl
    cases init <;> simp [GDriveStorage.removeItem, GDriveStorage.removeItemTry]
  · rintro e rfl
    cases init <;> cases hasToken <;> cases authOk <;>
      simp [GDriveStorage.removeItem, GDriveStorage.removeItemTry]
  · rintro rfl hauth w rfl
    cases hasToken <;> cases authOk <;>
      simp_all [GDriveStorage.getItem, GDriveStorage.getItemTry]
  · rintro rfl
    simp [GDriveStorage.getItem, GDriveStorage.getItemTry]
  · rintro rfl rfl
    cases init <;> simp [GDriveStorage.getItem, GDriveStorage.getItemTry]
  · rintro e rfl
    cases init <;> cases hasToken <;> cases authOk <;>
      simp [GDriveStorage.getItem, GDriveStorage.getItemTry]

/-- Witness for C3 (amended): with an uninitialized backend, `setItem`
falls back to a `localStorage` write and returns `false`; with everything in
order it returns `true` and leaves `localStorage` untouched. -/
theorem GDriveStorage.fallback_spec_witness :
    GDriveStorage.setItem false true true (Except.ok ()) [] "k" "v" = (false, [("k", "v")]) ∧
    GDriveStorage.setItem true true true (Except.ok ()) [] "k" "v" = (true, []) := by
  constructor
  · have h := (GDriveStorage.fallback_spec false true true (Except.ok ()) (Except.ok ())
      (Except.ok none) [] "k" "v").1.2.1 rfl
    rw [h]
    rfl
  · have h := (GDriveStorage.fallback_spec true true true (Except.ok ()) (Except.ok ())
      (Except.ok none) [] "k" "v").1.1 rfl (Or.inl rfl) rfl
    exact h

/-! ## C5: the fail-soft read path -/

lemma GASStorage.getItemRun_total (initialized : Bool) (req : Except String Response) :
    ∃ v, GASStorage.getItemRun initialized req = .ok v := by
  unfold GASStorage.getItemRun
  cases h : GASStorage.getItemTry initialized req with
  | ok v => exact ⟨v, rfl⟩
  | error e => exact ⟨none, rfl⟩

/-- C5: on an initialized backend, `GASStorage.getItem` never throws, whatever
the transport does: it always returns a value; a transport failure is caught
and degraded to `null`; a server `not_found` envelope is translated to `null`. -/
theorem GASStorage.getItem_fail_soft
    (send : List (String × String) → Except String Response) (storeId key : String) :
    (∃ v, GASStorage.getItem true send storeId key = .ok v) ∧
    (∀ e,
      send [("action", "getItem"), ("key", BaseStorage.generateKey storeId key ""),
            ("storeId", storeId)] = .error e →
      GASStorage.getItem true send storeId key = .ok none) ∧
    (∀ r,
      send [("action", "getItem"), ("key", BaseStorage.generateKey storeId key ""),
            ("storeId", storeId)] = .ok r →
      r.status = "not_found" →
      GASStorage.getItem true send storeId key = .ok none) := by
  refine ⟨GASStorage.getItemRun_total true _, ?_, ?_⟩
  · intro e he
    unfold GASStorage.getItem
    dsimp only
    rw [he]
    rfl
  · intro r hr hst
    unfold GASStorage.getItem GASStorage.getItemRun GASStorage.getItemTry
    dsimp only
    rw [hr]
    simp [hst]

/-- Witness for C5: a dead transport makes `getItem` return `null` instead of
propagating the failure. -/
theorem GASStorage.getItem_fail_soft_witness :
    GASStorage.getItem true (fun _ => Except.error "network down") "KRB01" "day1" =
      Except.ok none := by
  exact (GASStorage.getItem_fail_soft (fun _ => Except.error "network down")
    "KRB01" "day1").2.1 "network down" rfl

/-! ## C10: `getAllItems` is total at the caller boundary -/

/-- C10: `GASStorage.getAllItems` never propagates an exception — it returns
a list for every initialization state and transport outcome — and that list
is empty whenever the backend is uninitialized, the transport failed, or the
server answered with a non-`success` envelope. -/
theorem GASStorage.getAllItems_fail_soft
    (send : List (String × String) → Except String Response) (pfx storeId : String) :
    (∀ initialized, ∃ xs,
        GASStorage.getAllItems initialized send pfx storeId = .ok xs) ∧
    (GASStorage.getAllItems false send pfx storeId = .ok []) ∧
    (∀ e,
      send [("action", "getAllItems"), ("prefix", pfx), ("storeId", storeId)] = .error e →
      GASStorage.getAllItems true send pfx storeId = .ok []) ∧
    (∀ r,
      send [("action", "getAllItems"), ("prefix", pfx), ("storeId", storeId)] = .ok r →
      r.status ≠ "success" →
      GASStorage.getAllItems true send pfx storeId = .ok []) := by
  refine ⟨?_, ?_, ?_, ?_⟩
  · intro initialized
    unfold GASStorage.getAllItems
    cases h : GASStorage.getAllItemsTry initialized
        (send [("action", "getAllItems"), ("prefix", pfx), ("storeId", storeId)]) with
    | ok xs => exact ⟨xs, rfl⟩
    | error e => exact ⟨[], rfl⟩
  · rfl
  · intro e he
    unfold GASStorage.getAllItems GASStorage.getAllItemsTry
    rw [he]
    rfl
  · intro r hr hst
    unfold GASStorage.getAllItems GASStorage.getAllItemsTry
    rw [hr]
    have hb : (r.status == "success") = false := beq_eq_false_iff_ne.mpr hst
    simp [hb]

/-- Witness for C10: an uninitialized backend and a dead transport both
produce the empty list. -/
theorem GASStorage.getAllItems_fail_soft_witness :
    GASStorage.getAllItems false (fun _ => Except.error "network down") "yousei:" "KRB01" =
      Except.ok [] ∧
    GASStorage.getAllItems true (fun _ => Except.error "network down") "yousei:" "KRB01" =
      Except.ok [] := by
  constructor
  · exact (GASStorage.getAllItems_fail_soft (fun _ => Except.error "network down")
      "yousei:" "KRB01").2.1
  · exact (GASStorage.getAllItems_fail_soft (fun _ => Except.error "network down")
      "yousei:" "KRB01").2.2.1 "network down" rfl

/-! ## C1: the save/load round trip -/

lemma BaseStorage.generateKey_eq (p i : String) (hp : p ≠ "") (hi : i ≠ "") :
    BaseStorage.generateKey p i "" = p ++ "." ++ i := by
  have hp' : (p != "") = true := bne_iff_ne.mpr hp
  have hi' : (i != "") = true := bne_iff_ne.mpr hi
  have he' : (("" : String) != "") = false := by decide
  unfold BaseStorage.generateKey
  simp [List.filter, hp', hi', he', joinDots]

lemma appendKey_ne_empty (p i : String) : p ++ "." ++ i ≠ "" := by
  intro h
  have hlen := congrArg String.length h
  rw [String.length_append, String.length_append] at hlen
  have hd : ("." : String).length = 1 := rfl
  have he : ("" : String).length = 0 := rfl
  omega

lemma findRowValue_setRow (t : Table) (nr : Row) :
    findRowValue (setRow t nr) nr.key = some nr.value := by
  induction t with
  | nil => simp [setRow, findRowValue]
  | cons r rs ih =>
      cases h : r.key == nr.key with
      | true => simp [setRow, h, findRowValue]
      | false => simp [setRow, h, findRowValue, ih]

lemma setRow_cons (t : Table) (nr : Row) : ∃ r rs, setRow t nr = r :: rs := by
  cases t with
  | nil => exact ⟨nr, [], rfl⟩
  | cons r rs =>
      cases h : r.key == nr.key with
      | true => exact ⟨nr, rs, by simp [setRow, h]⟩
      | false => exact ⟨r, setRow rs nr, by simp [setRow, h]⟩

/-- C1 (amended): for every *string* value, on an initialized backend with any
fixed server sheet, `save(key, value)` followed by `load(key)` returns the
value unchanged (for non-empty `storeId` and `key`). -/
theorem GASStorage.roundTrip_string (t : Table) (storeId key s : String) (env : Env)
    (hsid : storeId ≠ "") (hkey : key ≠ "") :
    GASStorage.roundTrip t storeId key (.jstr s) env = .ok (some (.jstr s)) := by
  have hskne : BaseStorage.generateKey storeId key "" ≠ "" := by
    rw [BaseStorage.generateKey_eq storeId key hsid hkey]
    exact appendKey_ne_empty storeId key
  have hskb : (BaseStorage.generateKey storeId key "" == "") = false :=
    beq_eq_false_iff_ne.mpr hskne
  unfold GASStorage.roundTrip GASStorage.setItem GAS.handleSetItem
  simp only [if_neg (by decide : ¬ (true = false))]
  dsimp only [BaseStorage.validateData]
  simp only [jsFalsy, hskb, Bool.false_eq_true, if_neg]
  simp only [if_false, ite_self, Option.getD, createResponse, GASStorage.wireValue]
  rw [if_pos (show ("success" == "success") = true from rfl)]
  dsimp only
  unfold GASStorage.getItemS GASStorage.getItem GASStorage.getItemRun GASStorage.getItemTry
    GAS.handleGetItem
  obtain ⟨r0, rs0, hcons⟩ :=
    setRow_cons t ⟨BaseStorage.generateKey storeId key "", s, env.now, env.now⟩
  have hfind :=
    findRowValue_setRow t ⟨BaseStorage.generateKey storeId key "", s, env.now, env.now⟩
  rw [hcons] at hfind
  rw [hcons]
  dsimp only at hfind
  simp only [List.lookup]
  simp only [show ("key" == "action") = false from rfl, show ("key" == "key") = true from rfl]
  simp only [jsFalsy, hskb, Bool.false_eq_true, if_false, Option.getD]
  rw [hfind]
  simp [createResponse, respDataToJValue]

/-- Witness for C1 (amended): a concrete string value round-trips unchanged. -/
theorem GASStorage.roundTrip_string_witness :
    GASStorage.roundTrip [] "KRB01" "day1" (JValue.jstr "hello")
        ⟨"2024-01-01T00:00:00.000Z", fun _ _ => false⟩ =
      Except.ok (some (JValue.jstr "hello")) :=
  GASStorage.roundTrip_string [] "KRB01" "day1" "hello"
    ⟨"2024-01-01T00:00:00.000Z", fun _ _ => false⟩ (by decide) (by decide)

/-- C1 counterexample: a non-string JSON object does *not* round-trip
deep-equal.  `setItem` writes `JSON.stringify(value)` on the wire, but
`getItem` hands `result.data` back without parsing, so saving the object
`{"a":1}` and loading it yields the *string* `"{"a":1}"`, which is not
deep-equal to the object. -/
theorem GASStorage.roundTrip_object_counterexample :
    GASStorage.roundTrip [] "KRB01" "k" (JValue.jobj [("a", JValue.jnum 1)])
        ⟨"2024-01-01T00:00:00.000Z", fun _ _ => false⟩ =
      Except.ok (some (JValue.jstr "\x7b\"a\":1\x7d")) ∧
    ¬ GASStorage.roundTrip [] "KRB01" "k" (JValue.jobj [("a", JValue.jnum 1)])
        ⟨"2024-01-01T00:00:00.000Z", fun _ _ => false⟩ =
      Except.ok (some (JValue.jobj [("a", JValue.jnum 1)])) := by
  constructor
  · rfl
  · intro h
    rw [show GASStorage.roundTrip [] "KRB01" "k" (JValue.jobj [("a", JValue.jnum 1)])
          ⟨"2024-01-01T00:00:00.000Z", fun _ _ => false⟩ =
        Except.ok (some (JValue.jstr "\x7b\"a\":1\x7d")) from rfl] at h
    exact JValue.noConfusion (Option.some.inj (Except.ok.inj h))

/-! ## C2: delete-then-load -/

/-- C2 failing run: `setItem` stores under the prefixed storage key
`KRB01.test`, but `removeItem` sends the raw key `test`, so the server
reports `not_found`, `removeItem` throws `Remove failed` (instead of
returning `true`), the row survives, and a subsequent `load` still returns
the value instead of the `null` the claim requires. -/
theorem GASStorage.removeItem_unprefixed_key_bug :
    (GASStorage.setItem true "KRB01" "test" (JValue.jstr "v") []
        ⟨"2024-01-01T00:00:00.000Z", fun _ _ => false⟩).2 =
      [⟨"KRB01.test", "v", "2024-01-01T00:00:00.000Z", "2024-01-01T00:00:00.000Z"⟩] ∧
    GASStorage.removeItem true "KRB01" "test"
        [⟨"KRB01.test", "v", "2024-01-01T00:00:00.000Z", "2024-01-01T00:00:00.000Z"⟩]
        ⟨"2024-01-01T00:00:00.000Z", fun _ _ => false⟩ =
      (Except.error "Remove failed",
        [⟨"KRB01.test", "v", "2024-01-01T00:00:00.000Z", "2024-01-01T00:00:00.000Z"⟩]) ∧
    GASStorage.getItemS true "KRB01" "test"
        [⟨"KRB01.test", "v", "2024-01-01T00:00:00.000Z", "2024-01-01T00:00:00.000Z"⟩]
        ⟨"2024-01-01T00:00:00.000Z", fun _ _ => false⟩ =
      Except.ok (some (JValue.jstr "v")) :=
  ⟨rfl, rfl, rfl⟩

/-! ## C7: the previous-year lookup -/

/-- C7: the probe logic of `handleGetPreviousYearData` is dead code.  The
handler tests `result.status === 'success'` on the ContentService TextOutput
objects its nested `handleGetItem` calls return; TextOutput has no `status`
property, so every probe test fails and — for every request, sheet and
environment — the handler's status is `error` (unparsable target date) or
`not_found`, never `success`.  In particular, on the claim's concrete
scenario (one record at `yousei:S:2023-06-03`, target date `2024-06-05`) the
−2-day probe key is exactly `yousei:S:2023-06-03`, the sheet holds that row,
and `handleGetItem` on that key answers `success` with the record — yet
`handleGetPreviousYearData` still reports not-found. -/
theorem GAS.getPreviousYearData_dead_probe :
    (∀ (ps : Params) (t : Table) (env : Env),
        (GAS.handleGetPreviousYearData ps t env).status = "error" ∨
        (GAS.handleGetPreviousYearData ps t env).status = "not_found") ∧
    (∀ (v ts lm : String) (env : Env),
        youseiKey "S" (setFullYearMinus1 (toDayNumber 2024 6 5) - 2) =
          "yousei:S:2023-06-03" ∧
        findRowValue [⟨"yousei:S:2023-06-03", v, ts, lm⟩] "yousei:S:2023-06-03" = some v ∧
        GAS.handleGetItem (GAS.probeParams "yousei:S:2023-06-03" (some "S"))
            [⟨"yousei:S:2023-06-03", v, ts, lm⟩] env =
          createResponse "success" (.txt v) env ∧
        GAS.handleGetPreviousYearData
          ⟨some "getPreviousYearData", none, none, some "S", none, none, none, none,
            some "2024-06-05"⟩
          [⟨"yousei:S:2023-06-03", v, ts, lm⟩] env =
          createResponse "not_found" (.txt "Previous year data not found") env) := by
  constructor
  · intro ps t env
    unfold GAS.handleGetPreviousYearData
    cases htz : ps.targetDate.bind parseDate with
    | none => left; rfl
    | some tz => right; rfl
  · intro v ts lm env
    exact ⟨rfl, rfl, rfl, rfl⟩

/-! ## C8: the date-range query -/

lemma charListLe_total : ∀ a b : List Char, charListLe a b = true ∨ charListLe b a = true := by
  intro a
  induction a with
  | nil => intro b; exact Or.inl rfl
  | cons x xs ih =>
      intro b
      cases b with
      | nil => exact Or.inr rfl
      | cons y ys =>
          by_cases hxy : x < y
          · left
            simp [charListLe, hxy]
          · by_cases hyx : y < x
            · right
              simp [charListLe, hyx]
            · rcases ih ys with h | h
              · left
                simp [charListLe, hxy, hyx, h]
              · right
                simp [charListLe, hxy, hyx, h]

lemma strLe_total (a b : String) : strLe a b = true ∨ strLe b a = true :=
  charListLe_total a.data b.data

lemma mem_insertByDate (x a : RangeItem) : ∀ l, a ∈ insertByDate x l ↔ a = x ∨ a ∈ l := by
  intro l
  induction l with
  | nil => simp [insertByDate]
  | cons y ys ih =>
      by_cases h : strLe x.date y.date = true
      · simp [insertByDate, h]
      · simp only [insertByDate, if_neg h, List.mem_cons, ih]
        tauto

lemma mem_sortByDate (a : RangeItem) : ∀ l, a ∈ GAS.sortByDate l ↔ a ∈ l := by
  intro l
  induction l with
  | nil => simp [GAS.sortByDate]
  | cons x xs ih =>
      simp [GAS.sortByDate, mem_insertByDate, ih]

lemma chain'_insertByDate (x : RangeItem) :
    ∀ l, List.Chain' (fun a b => strLe a.date b.date = true) l →
      List.Chain' (fun a b => strLe a.date b.date = true) (insertByDate x l) := by
  intro l
  induction l with
  | nil => intro _; simp [insertByDate]
  | cons y ys ih =>
      intro hc
      by_cases h : strLe x.date y.date = true
      · simp only [insertByDate, if_pos h]
        exact hc.cons h
      · simp only [insertByDate, if_neg h]
        have hyx : strLe y.date x.date = true :=
          (strLe_total x.date y.date).resolve_left h
        have hys := hc.tail
        have hins := ih hys
        cases ys with
        | nil => exact List.chain'_pair.mpr hyx
        | cons z zs =>
            have hyz : strLe y.date z.date = true := (List.chain'_cons.mp hc).1
            refine List.chain'_cons'.mpr ⟨?_, hins⟩
            intro b hb
            by_cases hz : strLe x.date z.date = true
            · simp only [insertByDate, if_pos hz, List.head?_cons, Option.mem_def,
                Option.some.injEq] at hb
              rw [hb] at hyx
              exact hyx
            · simp only [insertByDate, if_neg hz, List.head?_cons, Option.mem_def,
                Option.some.injEq] at hb
              rw [hb] at hyz
              exact hyz

lemma sortByDate_chain' :
    ∀ l, List.Chain' (fun a b => strLe a.date b.date = true) (GAS.sortByDate l) := by
  intro l
  induction l with
  | nil => simp [GAS.sortByDate]
  | cons x xs ih => exact chain'_insertByDate x _ ih

lemma mem_dateRangeFilter (t : Table) (s e : Nat) (it : RangeItem) :
    it ∈ GAS.dateRangeFilter t s e ↔
      ∃ r ∈ t, strStartsWith r.key "yousei:" = true ∧
        (strSplit ':' r.key).length ≥ 3 ∧
        ∃ d, parseDate ((strSplit ':' r.key).getD 2 "") = some d ∧
          s ≤ d ∧ d ≤ e ∧
          it = ⟨r.key, r.value, (strSplit ':' r.key).getD 2 "", r.timestamp, r.lastModified⟩ := by
  unfold GAS.dateRangeFilter
  rw [List.mem_filterMap]
  constructor
  · rintro ⟨r, hr, hf⟩
    refine ⟨r, hr, ?_⟩
    by_cases h1 : strStartsWith r.key "yousei:" = true
    · rw [if_pos h1] at hf
      by_cases h2 : (strSplit ':' r.key).length ≥ 3
      · rw [if_pos h2] at hf
        dsimp only at hf
        cases hd : parseDate ((strSplit ':' r.key).getD 2 "") with
        | none => rw [hd] at hf; exact absurd hf (by simp)
        | some d =>
            rw [hd] at hf
            dsimp only at hf
            by_cases h3 : (s ≤ d && d ≤ e) = true
            · rw [if_pos h3] at hf
              simp only [Option.some.injEq] at hf
              simp only [Bool.and_eq_true, decide_eq_true_eq] at h3
              exact ⟨h1, h2, d, rfl, h3.1, h3.2, hf.symm⟩
            · rw [if_neg h3] at hf
              exact absurd hf (by simp)
      · rw [if_neg h2] at hf
        exact absurd hf (by simp)
    · rw [if_neg h1] at hf
      exact absurd hf (by simp)
  · rintro ⟨r, hr, h1, h2, d, hd, hs, he, hit⟩
    refine ⟨r, hr, ?_⟩
    rw [if_pos h1, if_pos h2]
    dsimp only
    rw [hd]
    dsimp only
    rw [if_pos (by simp [hs, he])]
    rw [hit]

/-- C8: for every sheet and every parsable `[start, end]` range,
`handleGetDateRange` answers `success` with the sorted filter result, whose
membership is exactly: rows whose key starts with `yousei:`, splits on `:`
into at least three parts, and whose third part parses to a date `d` with
`start ≤ d ≤ end` (both endpoints included) — all other rows are excluded —
and which is sorted ascending by the date substring under lexicographic
(code-point) order.  On the spec's concrete example the two January rows are
returned, `01-05` before `01-10`, and the February row is excluded. -/
theorem GAS.getDateRange_filter_sort :
    (∀ (ps : Params) (t : Table) (env : Env) (ss es : String) (s e : Nat),
        ps.startDate = some ss → parseDate ss = some s →
        ps.endDate = some es → parseDate es = some e →
        GAS.handleGetDateRange ps t env =
          createResponse "success"
            (.rangeItems (GAS.sortByDate (GAS.dateRangeFilter t s e))) env ∧
        (∀ it, it ∈ GAS.sortByDate (GAS.dateRangeFilter t s e) ↔
          ∃ r ∈ t, strStartsWith r.key "yousei:" = true ∧
            (strSplit ':' r.key).length ≥ 3 ∧
            ∃ d, parseDate ((strSplit ':' r.key).getD 2 "") = some d ∧
              s ≤ d ∧ d ≤ e ∧
              it = ⟨r.key, r.value, (strSplit ':' r.key).getD 2 "", r.timestamp,
                r.lastModified⟩) ∧
        List.Chain' (fun a b => strLe a.date b.date = true)
          (GAS.sortByDate (GAS.dateRangeFilter t s e))) ∧
    (∀ (env : Env) (v1 v2 v3 t1 t2 t3 l1 l2 l3 : String),
        GAS.handleGetDateRange
          ⟨some "getDateRange", none, none, some "S", none, none,
            some "2024-01-01", some "2024-01-31", none⟩
          [⟨"yousei:S:2024-01-05", v1, t1, l1⟩, ⟨"yousei:S:2024-01-10", v2, t2, l2⟩,
           ⟨"yousei:S:2024-02-01", v3, t3, l3⟩] env =
          createResponse "success"
            (.rangeItems
              [⟨"yousei:S:2024-01-05", v1, "2024-01-05", t1, l1⟩,
               ⟨"yousei:S:2024-01-10", v2, "2024-01-10", t2, l2⟩]) env) := by
  constructor
  · intro ps t env ss es s e hss hs hes he
    refine ⟨?_, ?_, sortByDate_chain' _⟩
    · unfold GAS.handleGetDateRange
      rw [hss, hes]
      simp only [Option.some_bind]
      rw [hs, he]
    · intro it
      exact (mem_sortByDate it _).trans (mem_dateRangeFilter t s e it)
  · intro env v1 v2 v3 t1 t2 t3 l1 l2 l3
    rfl

/-- Witness for C8: the general characterization applied to the concrete
three-row sheet and range `[2024-01-01, 2024-01-31]` evaluates to exactly the
two January items in ascending date order. -/
theorem GAS.getDateRange_filter_sort_witness :
    GAS.handleGetDateRange
      ⟨some "getDateRange", none, none, some "S", none, none,
        some "2024-01-01", some "2024-01-31", none⟩
      [⟨"yousei:S:2024-01-10", "v2", "t2", "l2"⟩, ⟨"yousei:S:2024-02-01", "v3", "t3", "l3"⟩,
       ⟨"yousei:S:2024-01-05", "v1", "t1", "l1"⟩]
      ⟨"now", fun _ _ => false⟩ =
      createResponse "success"
        (.rangeItems
          [⟨"yousei:S:2024-01-05", "v1", "2024-01-05", "t1", "l1"⟩,
           ⟨"yousei:S:2024-01-10", "v2", "2024-01-10", "t2", "l2"⟩])
        ⟨"now", fun _ _ => false⟩ := by
  have h := ((GAS.getDateRange_filter_sort).1
    ⟨some "getDateRange", none, none, some "S", none, none,
      some "2024-01-01", some "2024-01-31", none⟩
    [⟨"yousei:S:2024-01-10", "v2", "t2", "l2"⟩, ⟨"yousei:S:2024-02-01", "v3", "t3", "l3"⟩,
     ⟨"yousei:S:2024-01-05", "v1", "t1", "l1"⟩]
    ⟨"now", fun _ _ => false⟩ "2024-01-01" "2024-01-31"
    (toDayNumber 2024 1 1) (toDayNumber 2024 1 31) rfl rfl rfl rfl).1
  rw [h]
  rfl

/-! ## C9: the response envelope discipline -/

/-- A well-formed protocol envelope: the status is one of the three protocol
statuses, and the `data`/`error`/`message` fields are present exactly for
`success`/`error`/`not_found` respectively (the `timestamp` field is always
present by the shape of `Response`). -/
def wfEnvelope (r : Response) : Prop :=
  (r.status = "success" ∨ r.status = "error" ∨ r.status = "not_found") ∧
  (r.data.isSome ↔ r.status = "success") ∧
  (r.error.isSome ↔ r.status = "error") ∧
  (r.message.isSome ↔ r.status = "not_found")

lemma wf_createResponse (st : String) (d : PData) (env : Env)
    (h : st = "success" ∨ st = "error" ∨ st = "not_found") :
    wfEnvelope (createResponse st d env) := by
  rcases h with rfl | rfl | rfl <;> simp [wfEnvelope, createResponse]

lemma wf_handleSetItem (ps : Params) (t : Table) (env : Env) :
    wfEnvelope (GAS.handleSetItem ps t env).1 := by
  unfold GAS.handleSetItem
  by_cases hk : jsFalsy ps.key = true
  · rw [if_pos hk]
    exact wf_createResponse _ _ _ (by simp)
  · rw [if_neg hk]
    cases hv : ps.value with
    | none => exact wf_createResponse _ _ _ (by simp)
    | some v => exact wf_createResponse _ _ _ (by simp)

lemma wf_handleGetItem (ps : Params) (t : Table) (env : Env) :
    wfEnvelope (GAS.handleGetItem ps t env) := by
  unfold GAS.handleGetItem
  by_cases hk : jsFalsy ps.key = true
  · rw [if_pos hk]
    exact wf_createResponse _ _ _ (by simp)
  · rw [if_neg hk]
    cases t with
    | nil => exact wf_createResponse _ _ _ (by simp)
    | cons r rs =>
        dsimp only
        cases findRowValue (r :: rs) (ps.key.getD "") with
        | some v => exact wf_createResponse _ _ _ (by simp)
        | none => exact wf_createResponse _ _ _ (by simp)

lemma wf_handleRemoveItem (ps : Params) (t : Table) (env : Env) :
    wfEnvelope (GAS.handleRemoveItem ps t env).1 := by
  unfold GAS.handleRemoveItem
  by_cases hk : jsFalsy ps.key = true
  · rw [if_pos hk]
    exact wf_createResponse _ _ _ (by simp)
  · rw [if_neg hk]
    cases t with
    | nil => exact wf_createResponse _ _ _ (by simp)
    | cons r rs =>
        dsimp only
        cases findRowValue (r :: rs) (ps.key.getD "") with
        | some v => exact wf_createResponse _ _ _ (by simp)
        | none => exact wf_createResponse _ _ _ (by simp)

lemma wf_handleGetAllItems (ps : Params) (t : Table) (env : Env) :
    wfEnvelope (GAS.handleGetAllItems ps t env) :=
  wf_createResponse _ _ _ (by simp)

lemma wf_handleGetDateRange (ps : Params) (t : Table) (env : Env) :
    wfEnvelope (GAS.handleGetDateRange ps t env) :=
  wf_createResponse _ _ _ (by simp)

lemma wf_handleGetPreviousYearData (ps : Params) (t : Table) (env : Env) :
    wfEnvelope (GAS.handleGetPreviousYearData ps t env) := by
  unfold GAS.handleGetPreviousYearData
  cases ps.targetDate.bind parseDate with
  | none => exact wf_createResponse _ _ _ (by simp)
  | some tz =>
      exact wf_createResponse "not_found" (.txt "Previous year data not found") env (by simp)

lemma wf_handleCreateBackup (ps : Params) (env : Env) :
    wfEnvelope (GAS.handleCreateBackup ps env) :=
  wf_createResponse _ _ _ (by simp)

lemma wf_handleGetSyncStatus (ps : Params) (t : Table) (env : Env) :
    wfEnvelope (GAS.handleGetSyncStatus ps t env) :=
  wf_createResponse _ _ _ (by simp)

lemma wf_handlePing (env : Env) : wfEnvelope (GAS.handlePing env) :=
  wf_createResponse _ _ _ (by simp)

/-- C9: every `handleRequest` response — for every parameter object, every
sheet-access outcome (including a throwing spreadsheet layer) and every
environment — is exactly one well-formed envelope: status in
`{success, error, not_found}`, a timestamp, and `data`/`error`/`message`
present only for `success`/`error`/`not_found` respectively; no raw exception
reaches the transport layer.  Moreover, for every sheet-reading action other
than `getPreviousYearData`, the handler converts a throwing sheet layer into
a `status: error` envelope (`getPreviousYearData`'s nested `handleGetItem`
calls convert the failure to `error` envelopes internally and its offset scan
then reports `not_found` — still a well-formed envelope, never a raw fault). -/
theorem GAS.handleRequest_envelope :
    (∀ (ps : Params) (sheet : Except String Table) (env : Env),
        wfEnvelope (GAS.handleRequest ps sheet env)) ∧
    (∀ (ps : Params) (env : Env) (err : String) (a : String),
        ps.action = some a →
        (a = "setItem" ∨ a = "getItem" ∨ a = "removeItem" ∨ a = "getAllItems" ∨
          a = "getDateRange" ∨ a = "createBackup" ∨ a = "getSyncStatus") →
        (GAS.handleRequest ps (.error err) env).status = "error") := by
  constructor
  · intro ps sheet env
    unfold GAS.handleRequest
    cases ha : ps.action with
    | none => exact wf_createResponse _ _ _ (by simp)
    | some a =>
        dsimp only
        split_ifs <;>
          first
            | exact wf_handlePing _
            | (cases sheet with
                | error e => exact wf_createResponse _ _ _ (by simp)
                | ok t =>
                    first
                      | exact wf_handleSetItem _ _ _
                      | exact wf_handleGetItem _ _ _
                      | exact wf_handleRemoveItem _ _ _
                      | exact wf_handleGetAllItems _ _ _
                      | exact wf_handleGetDateRange _ _ _
                      | exact wf_handleGetPreviousYearData _ _ _
                      | exact wf_handleCreateBackup _ _
                      | exact wf_handleGetSyncStatus _ _ _)
            | exact wf_createResponse _ _ _ (by simp)
  · intro ps env err a ha hmem
    unfold GAS.handleRequest
    rw [ha]
    dsimp only
    rcases hmem with rfl | rfl | rfl | rfl | rfl | rfl | rfl <;> rfl

/-- Witness for C9: a `setItem` request against a throwing spreadsheet layer
comes back as one `status: error` envelope (which is well-formed). -/
theorem GAS.handleRequest_envelope_witness :
    (GAS.handleRequest
      ⟨some "setItem", some "k", some "v", some "S", none, none, none, none, none⟩
      (Except.error "Spreadsheet unavailable") ⟨"now", fun _ _ => false⟩).status = "error" := by
  exact (GAS.handleRequest_envelope).2
    ⟨some "setItem", some "k", some "v", some "S", none, none, none, none, none⟩
    ⟨"now", fun _ _ => false⟩ "Spreadsheet unavailable" "setItem" rfl (by simp)
